import Mathlib

set_option autoImplicit false

namespace DrivingPassion

/-- Calendar date as Python's `datetime` exposes it to this code: only the
`year`, `month` and `day` fields are ever read by the tax core. -/
structure PyDate where
  year : ℤ
  month : ℤ
  day : ℤ
deriving DecidableEq, Repr

/-- Python's `round(x, 2)`: rounding to 2 decimal places. Python rounds exact
half-cent ties to even; no value any claim pins down sits on such a tie, so the
tie direction of Mathlib's `round` is immaterial here. -/
def round2 (q : ℚ) : ℚ := (round (q * 100) : ℤ) / 100

/-- Does the character list `s` start with the pattern `p`? -/
def leadsWith : List Char → List Char → Bool
  | [], _ => true
  | _ :: _, [] => false
  | p :: ps, c :: cs => p == c && leadsWith ps cs

/-- Contiguous-substring test on character lists. -/
def hasSub (pat : List Char) : List Char → Bool
  | [] => leadsWith pat []
  | c :: cs => leadsWith pat (c :: cs) || hasSub pat cs

/-- Python's substring operator `sub in s` on strings. -/
def strIn (sub s : String) : Bool := hasSub sub.toList s.toList

/-- Python's `str.lower()` (ASCII case folding, which covers every string this
code compares). -/
def pyLower (s : String) : String := ⟨s.data.map Char.toLower⟩

/-- Python's `str.strip()`: whitespace removed from both ends. -/
def pyStrip (s : String) : String :=
  ⟨((s.data.dropWhile Char.isWhitespace).reverse.dropWhile Char.isWhitespace).reverse⟩

/-- Embeds `utils.calculate_vehicle_age_months`; the hidden `datetime.now()`
read by the Python source is passed explicitly as `now`. -/
def calculate_vehicle_age_months (first_registration_date now : PyDate) : ℤ :=
  let months := (now.year - first_registration_date.year) * 12
      + (now.month - first_registration_date.month)
  let months := if now.day < first_registration_date.day then months - 1 else months
  max 0 months

def hybrid_terms : List String :=
  ["hybrid", "hybride", "plug-in", "phev", "plugin", "plugin_hybrid", "mild_hybrid", "plug_in"]

def hybrid_combos : List String :=
  ["elektro/benzin", "benzin/elektro",
   "elektro/diesel", "diesel/elektro",
   "electric/petrol", "petrol/electric",
   "electric/diesel", "diesel/electric",
   "benzine/elektro", "elektro/benzine",
   "gasoline/electric", "electric/gasoline"]

def electric_terms : List String :=
  ["electric", "elektrisch", "elektro", "ev", "battery electric", "bev", "electro"]

def diesel_terms : List String := ["diesel", "diesel (diesel)"]

def petrol_terms : List String := ["petrol", "benzine", "benzin", "gasoline", "petrol (gasoline)"]

def lpg_terms : List String := ["lpg", "gas", "autogas"]

/-- Embeds `utils.normalize_fuel_type`: hybrid checks first, then electric,
diesel, petrol, lpg, defaulting to `"petrol"` for anything unrecognized. -/
def normalize_fuel_type (fuel_type : String) : String :=
  let fuel_lower := pyStrip (pyLower fuel_type)
  if hybrid_terms.any (fun t => strIn t fuel_lower) then "hybrid"
  else if hybrid_combos.any (fun c => strIn c fuel_lower) then "hybrid"
  else if (["elektro", "electric", "elektrisch", "electro"].any (fun t => strIn t fuel_lower))
      && (["benzin", "diesel", "petrol", "gasoline", "benzine"].any (fun t => strIn t fuel_lower))
    then "hybrid"
  else if electric_terms.any (fun t => strIn t fuel_lower) then "electric"
  else if diesel_terms.any (fun t => strIn t fuel_lower) then "diesel"
  else if petrol_terms.any (fun t => strIn t fuel_lower) then "petrol"
  else if lpg_terms.any (fun t => strIn t fuel_lower) then "lpg"
  else "petrol"

/-- One row of a CO2 bracket table from `constants.py`; `max := none` embeds
the source's `float("inf")` open upper bound. -/
structure TaxBracket where
  min : ℤ
  max : Option ℤ
  threshold : ℤ
  rate : ℚ
  base : ℚ
deriving DecidableEq, Repr

/-- Comparison against an optional upper bound; `none` embeds `float("inf")`,
which every value is below. -/
def leMax (x : ℤ) : Option ℤ → Prop
  | none => True
  | some m => x ≤ m

instance (x : ℤ) (m : Option ℤ) : Decidable (leMax x m) :=
  match m with
  | none => inferInstanceAs (Decidable True)
  | some y => inferInstanceAs (Decidable (x ≤ y))

/-- Loop of `_calculate_gross_bpm_for_brackets`: the first bracket whose range
contains the CO2 value wins; `fb` is the value produced when the loop falls
through past the end of the list. -/
def grossFind (co2_gkm : ℤ) (fb : ℚ) : List TaxBracket → ℚ
  | [] => fb
  | b :: rest =>
    if b.min ≤ co2_gkm ∧ leMax co2_gkm b.max then
      round2 (((co2_gkm : ℚ) - (b.threshold : ℚ)) * b.rate + b.base)
    else grossFind co2_gkm fb rest

/-- Embeds `_calculate_gross_bpm_for_brackets`. Python's fallback indexes
`brackets[-1]`, which faults on an empty list; the total embedding returns 0
there, a case no caller of the source ever reaches. -/
def _calculate_gross_bpm_for_brackets (co2_gkm : ℤ) (brackets : List TaxBracket) : ℚ :=
  grossFind co2_gkm
    (match brackets.getLast? with
     | some lb => round2 (((co2_gkm : ℚ) - (lb.threshold : ℚ)) * lb.rate + lb.base)
     | none => 0)
    brackets

/-- The 2026 bracket table `CO2_BRACKETS` from `constants.py`. -/
def CO2_BRACKETS : List TaxBracket :=
  [{ min := 0, max := some 77, threshold := 0, rate := 2, base := 687 },
   { min := 78, max := some 100, threshold := 77, rate := 82, base := 841 },
   { min := 101, max := some 139, threshold := 100, rate := 181, base := 2727 },
   { min := 140, max := some 155, threshold := 139, rate := 297, base := 9786 },
   { min := 156, max := none, threshold := 155, rate := 594, base := 14538 }]

def DIESEL_SURCHARGE_RATE : ℚ := 114.83

def DIESEL_SURCHARGE_THRESHOLD : ℤ := 70

def DIESEL_SURCHARGE_SUBTRACT : ℤ := 69

/-- Embeds `calculate_gross_bpm` (the 2026-regime entry point). -/
def calculate_gross_bpm (co2_gkm : ℤ) : ℚ :=
  _calculate_gross_bpm_for_brackets co2_gkm CO2_BRACKETS

/-- Embeds `_calculate_diesel_surcharge_for_regime`. -/
def _calculate_diesel_surcharge_for_regime (co2_gkm : ℤ) (fuel_type : String)
    (threshold subtract : ℤ) (rate : ℚ) : ℚ :=
  if fuel_type ≠ "diesel" then 0
  else if co2_gkm ≤ threshold then 0
  else round2 (((co2_gkm - subtract : ℤ) : ℚ) * rate)

/-- Embeds `calculate_diesel_surcharge` (the 2026-regime entry point). -/
def calculate_diesel_surcharge (co2_gkm : ℤ) (fuel_type : String) : ℚ :=
  _calculate_diesel_surcharge_for_regime co2_gkm fuel_type
    DIESEL_SURCHARGE_THRESHOLD DIESEL_SURCHARGE_SUBTRACT DIESEL_SURCHARGE_RATE

/-- One row of the forfaitaire depreciation table; `max_months := none` embeds
`float("inf")`. -/
structure DepBracket where
  min_months : ℤ
  max_months : Option ℤ
  base_percentage : ℚ
  monthly_addition : ℚ
deriving DecidableEq, Repr

/-- The `DEPRECIATION_TABLE` from `constants.py`. -/
def DEPRECIATION_TABLE : List DepBracket :=
  [{ min_months := 0, max_months := some 1, base_percentage := 0, monthly_addition := 12 },
   { min_months := 1, max_months := some 3, base_percentage := 12, monthly_addition := 4 },
   { min_months := 3, max_months := some 5, base_percentage := 20, monthly_addition := 3.5 },
   { min_months := 5, max_months := some 9, base_percentage := 27, monthly_addition := 1.5 },
   { min_months := 9, max_months := some 18, base_percentage := 33, monthly_addition := 1 },
   { min_months := 18, max_months := some 30, base_percentage := 42, monthly_addition := 0.75 },
   { min_months := 30, max_months := some 42, base_percentage := 51, monthly_addition := 0.5 },
   { min_months := 42, max_months := some 54, base_percentage := 57, monthly_addition := 0.42 },
   { min_months := 54, max_months := some 66, base_percentage := 62, monthly_addition := 0.42 },
   { min_months := 66, max_months := some 78, base_percentage := 67, monthly_addition := 0.42 },
   { min_months := 78, max_months := some 90, base_percentage := 72, monthly_addition := 0.25 },
   { min_months := 90, max_months := some 102, base_percentage := 75, monthly_addition := 0.25 },
   { min_months := 102, max_months := some 114, base_percentage := 78, monthly_addition := 0.25 },
   { min_months := 114, max_months := none, base_percentage := 81, monthly_addition := 0.19 }]

/-- Loop of `get_depreciation_percentage`; `fb` is the fallback value used when
the age falls past every row. -/
def depFind (age_months : ℤ) (fb : ℚ) : List DepBracket → ℚ
  | [] => fb
  | b :: rest =>
    if b.min_months ≤ age_months ∧ leMax age_months b.max_months then
      min (b.base_percentage + ((age_months - b.min_months : ℤ) : ℚ) * b.monthly_addition) 100
    else depFind age_months fb rest

/-- Embeds `get_depreciation_percentage`, including the fallback that evaluates
the last table row at its own 12-month mark. -/
def get_depreciation_percentage (age_months : ℤ) : ℚ :=
  depFind age_months
    (match DEPRECIATION_TABLE.getLast? with
     | some lb => min (lb.base_percentage + 12 * lb.monthly_addition) 100
     | none => 0)
    DEPRECIATION_TABLE

/-- A year-stamped tax configuration from `HISTORICAL_BPM_REGIMES`. -/
structure Regime where
  year : ℤ
  label : String
  measurement : String
  verified : Bool
  ev_exempt : Bool
  co2_brackets : List TaxBracket
  diesel_threshold : ℤ
  diesel_subtract : ℤ
  diesel_rate : ℚ
deriving DecidableEq, Repr, Inhabited

/-- The `HISTORICAL_BPM_REGIMES` catalog from `constants.py`, in ascending
year order, 2020 through 2026. -/
def HISTORICAL_BPM_REGIMES : List Regime :=
  [{ year := 2020, label := "2020 H2 (WLTP)", measurement := "WLTP",
     verified := true, ev_exempt := true,
     co2_brackets :=
       [{ min := 0, max := some 90, threshold := 0, rate := 1, base := 366 },
        { min := 91, max := some 116, threshold := 90, rate := 57, base := 456 },
        { min := 117, max := some 162, threshold := 116, rate := 124, base := 1938 },
        { min := 163, max := some 180, threshold := 162, rate := 204, base := 7642 },
        { min := 181, max := none, threshold := 180, rate := 408, base := 11314 }],
     diesel_threshold := 59, diesel_subtract := 59, diesel_rate := 89.95 },
   { year := 2021, label := "2021 (WLTP)", measurement := "WLTP",
     verified := false, ev_exempt := true,
     co2_brackets :=
       [{ min := 0, max := some 88, threshold := 0, rate := 1, base := 366 },
        { min := 89, max := some 113, threshold := 88, rate := 59, base := 454 },
        { min := 114, max := some 158, threshold := 113, rate := 131, base := 1929 },
        { min := 159, max := some 175, threshold := 158, rate := 222, base := 7824 },
        { min := 176, max := none, threshold := 175, rate := 443, base := 11598 }],
     diesel_threshold := 62, diesel_subtract := 62, diesel_rate := 93.0 },
   { year := 2022, label := "2022 (WLTP)", measurement := "WLTP",
     verified := false, ev_exempt := true,
     co2_brackets :=
       [{ min := 0, max := some 85, threshold := 0, rate := 2, base := 366 },
        { min := 86, max := some 109, threshold := 85, rate := 61, base := 536 },
        { min := 110, max := some 154, threshold := 109, rate := 137, base := 2000 },
        { min := 155, max := some 171, threshold := 154, rate := 239, base := 8165 },
        { min := 172, max := none, threshold := 171, rate := 479, base := 12228 }],
     diesel_threshold := 65, diesel_subtract := 65, diesel_rate := 98.0 },
   { year := 2023, label := "2023 (WLTP)", measurement := "WLTP",
     verified := false, ev_exempt := true,
     co2_brackets :=
       [{ min := 0, max := some 83, threshold := 0, rate := 2, base := 400 },
        { min := 84, max := some 107, threshold := 83, rate := 71, base := 566 },
        { min := 108, max := some 149, threshold := 107, rate := 152, base := 2270 },
        { min := 150, max := some 166, threshold := 149, rate := 257, base := 8654 },
        { min := 167, max := none, threshold := 166, rate := 514, base := 13023 }],
     diesel_threshold := 67, diesel_subtract := 67, diesel_rate := 102.0 },
   { year := 2024, label := "2024 (WLTP)", measurement := "WLTP",
     verified := true, ev_exempt := true,
     co2_brackets :=
       [{ min := 0, max := some 80, threshold := 0, rate := 2, base := 440 },
        { min := 81, max := some 104, threshold := 80, rate := 76, base := 600 },
        { min := 105, max := some 145, threshold := 104, rate := 167, base := 2424 },
        { min := 146, max := some 161, threshold := 145, rate := 274, base := 9271 },
        { min := 162, max := none, threshold := 161, rate := 549, base := 13655 }],
     diesel_threshold := 70, diesel_subtract := 69, diesel_rate := 106.07 },
   { year := 2025, label := "2025 (WLTP)", measurement := "WLTP",
     verified := true, ev_exempt := false,
     co2_brackets :=
       [{ min := 0, max := some 79, threshold := 0, rate := 2, base := 667 },
        { min := 80, max := some 101, threshold := 79, rate := 79, base := 825 },
        { min := 102, max := some 141, threshold := 101, rate := 173, base := 2563 },
        { min := 142, max := some 157, threshold := 141, rate := 284, base := 9483 },
        { min := 158, max := none, threshold := 157, rate := 568, base := 14027 }],
     diesel_threshold := 70, diesel_subtract := 69, diesel_rate := 109.87 },
   { year := 2026, label := "2026 (WLTP)", measurement := "WLTP",
     verified := true, ev_exempt := false,
     co2_brackets :=
       [{ min := 0, max := some 77, threshold := 0, rate := 2, base := 687 },
        { min := 78, max := some 100, threshold := 77, rate := 82, base := 841 },
        { min := 101, max := some 139, threshold := 100, rate := 181, base := 2727 },
        { min := 140, max := some 155, threshold := 139, rate := 297, base := 9786 },
        { min := 156, max := none, threshold := 155, rate := 594, base := 14538 }],
     diesel_threshold := 70, diesel_subtract := 69, diesel_rate := 114.83 }]

/-- Embeds `_calculate_bpm_for_regime`: the triple
`(gross_bpm, diesel_surcharge, total_gross)`, with the EV exemption forcing all
three to zero. -/
def _calculate_bpm_for_regime (co2_gkm : ℤ) (fuel_type : String) (regime : Regime) :
    ℚ × ℚ × ℚ :=
  if fuel_type = "electric" ∧ regime.ev_exempt = true then (0, 0, 0)
  else
    let gross_bpm := _calculate_gross_bpm_for_brackets co2_gkm regime.co2_brackets
    let diesel_surcharge := _calculate_diesel_surcharge_for_regime co2_gkm fuel_type
      regime.diesel_threshold regime.diesel_subtract regime.diesel_rate
    (gross_bpm, diesel_surcharge, gross_bpm + diesel_surcharge)

/-- The `total_gross` component of `_calculate_bpm_for_regime`. -/
def totalGrossFor (co2_gkm : ℤ) (fuel_type : String) (regime : Regime) : ℚ :=
  (_calculate_bpm_for_regime co2_gkm fuel_type regime).2.2

/-- Embeds `_get_applicable_regimes`: every catalog regime whose year is at
least `max(registration year, 2020)`. -/
def _get_applicable_regimes (first_registration_date : PyDate) : List Regime :=
  let det_year := first_registration_date.year
  let start_year := max det_year 2020
  HISTORICAL_BPM_REGIMES.filter (fun r => decide (start_year ≤ r.year))

/-- The regime-selection loop of `calculate_bpm`: a linear scan comparing each
regime's `total_gross` with strict `<` against the running best. The `none`
accumulator plays the role of the initial `best_total_gross = float("inf")`,
which every finite total beats, so the first regime always becomes the best. -/
def bestLoop (co2_gkm : ℤ) (fuel_type : String) :
    List Regime → Option (Regime × ℚ × ℚ × ℚ) → Option (Regime × ℚ × ℚ × ℚ)
  | [], acc => acc
  | regime :: rest, acc =>
    let c := _calculate_bpm_for_regime co2_gkm fuel_type regime
    match acc with
    | none => bestLoop co2_gkm fuel_type rest (some (regime, c.1, c.2.1, c.2.2))
    | some (_, _, _, bt) =>
      if c.2.2 < bt then bestLoop co2_gkm fuel_type rest (some (regime, c.1, c.2.1, c.2.2))
      else bestLoop co2_gkm fuel_type rest acc

/-- Embeds `next(r for r in HISTORICAL_BPM_REGIMES if r["year"] == 2026)`. The
generator always succeeds on the concrete catalog, so the `getD` default is
never reached. -/
def regime_2026 : Regime :=
  (HISTORICAL_BPM_REGIMES.find? (fun r => decide (r.year = 2026))).getD
    { year := 0, label := "", measurement := "", verified := false, ev_exempt := false,
      co2_brackets := [], diesel_threshold := 0, diesel_subtract := 0, diesel_rate := 0 }

/-- The result record of `calculate_bpm`. -/
structure BPMResult where
  gross_bpm : ℚ
  rest_bpm : ℚ
  depreciation_percentage : ℚ
  diesel_surcharge : ℚ
  vehicle_age_months : ℤ
  co2_gkm : ℤ
  fuel_type : String
  regime_year : ℤ
  regime_label : String
  regime_verified : Bool
  bpm_2026_regime : ℚ
  regime_savings : ℚ
  pre_wltp_note : String
deriving DecidableEq, Repr

/-- The advisory text attached to vehicles registered before July 2020. -/
def PRE_WLTP_NOTE : String :=
  "Uw auto dateert van voor de WLTP-overgang (juli 2020). Met de NEDC CO2-waarde en het historisch NEDC-regime kan de BPM aanzienlijk lager zijn. Raadpleeg een BPM-specialist."

/-- Embeds `calculate_bpm`: keuzerecht selection over the applicable regimes,
with the 2026 figures as comparison baseline and as fallback when no regime is
applicable. The clock read `datetime.now()` is passed explicitly as `now`. -/
def calculate_bpm (co2_gkm : ℤ) (fuel_type : String)
    (first_registration_date now : PyDate) : BPMResult :=
  let normalized_fuel := normalize_fuel_type fuel_type
  let age_months := calculate_vehicle_age_months first_registration_date now
  let depreciation := get_depreciation_percentage age_months
  let total_gross_2026 := (_calculate_bpm_for_regime co2_gkm normalized_fuel regime_2026).2.2
  let rest_bpm_2026 := round2 (total_gross_2026 * (1 - depreciation / 100))
  let applicable_regimes := _get_applicable_regimes first_registration_date
  let det_year := first_registration_date.year
  let pre_wltp_note :=
    if det_year < 2020 ∨ (det_year = 2020 ∧ first_registration_date.month < 7) then
      PRE_WLTP_NOTE
    else ""
  match bestLoop co2_gkm normalized_fuel applicable_regimes none with
  | some (best_regime, best_gross_bpm, best_diesel_surcharge, best_total_gross) =>
    let rest_bpm := round2 (best_total_gross * (1 - depreciation / 100))
    { gross_bpm := round2 best_gross_bpm
      rest_bpm := rest_bpm
      depreciation_percentage := depreciation
      diesel_surcharge := round2 best_diesel_surcharge
      vehicle_age_months := age_months
      co2_gkm := co2_gkm
      fuel_type := normalized_fuel
      regime_year := best_regime.year
      regime_label := best_regime.label
      regime_verified := best_regime.verified
      bpm_2026_regime := rest_bpm_2026
      regime_savings := round2 (rest_bpm_2026 - rest_bpm)
      pre_wltp_note := pre_wltp_note }
  | none =>
    let rest_bpm := round2 (total_gross_2026 * (1 - depreciation / 100))
    { gross_bpm := round2 total_gross_2026
      rest_bpm := rest_bpm
      depreciation_percentage := depreciation
      diesel_surcharge := round2 0
      vehicle_age_months := age_months
      co2_gkm := co2_gkm
      fuel_type := normalized_fuel
      regime_year := regime_2026.year
      regime_label := regime_2026.label
      regime_verified := regime_2026.verified
      bpm_2026_regime := rest_bpm_2026
      regime_savings := round2 (rest_bpm_2026 - rest_bpm)
      pre_wltp_note := pre_wltp_note }

theorem round2_eq (q : ℚ) : round2 q = (⌊q * 100 + 1 / 2⌋ : ℤ) / 100 := by
  rw [round2, round_eq]

theorem round2_mono {a b : ℚ} (h : a ≤ b) : round2 a ≤ round2 b := by
  rw [round2_eq, round2_eq]
  have hf : (⌊a * 100 + 1 / 2⌋ : ℤ) ≤ ⌊b * 100 + 1 / 2⌋ :=
    Int.floor_le_floor (by linarith)
  have : ((⌊a * 100 + 1 / 2⌋ : ℤ) : ℚ) ≤ ((⌊b * 100 + 1 / 2⌋ : ℤ) : ℚ) := by
    exact_mod_cast hf
  linarith

theorem round2_zero : round2 0 = 0 := by
  rw [round2_eq]
  norm_num

theorem round2_nonneg {q : ℚ} (h : 0 ≤ q) : 0 ≤ round2 q := by
  have := round2_mono h
  rwa [round2_zero] at this

/-- Shorthand for the components of `_calculate_bpm_for_regime`. -/
theorem totalGrossFor_def (co2_gkm : ℤ) (fuel_type : String) (r : Regime) :
    (_calculate_bpm_for_regime co2_gkm fuel_type r).2.2 = totalGrossFor co2_gkm fuel_type r :=
  rfl

theorem bestLoop_go (co2_gkm : ℤ) (fuel_type : String) :
    ∀ (l : List Regime) (br : Regime) (bg bs bt : ℚ),
    ∃ r g s t,
      bestLoop co2_gkm fuel_type l (some (br, bg, bs, bt)) = some (r, g, s, t) ∧
      t ≤ bt ∧ (∀ x ∈ l, t ≤ totalGrossFor co2_gkm fuel_type x) ∧
      ((r = br ∧ g = bg ∧ s = bs ∧ t = bt) ∨
        (t < bt ∧
          g = (_calculate_bpm_for_regime co2_gkm fuel_type r).1 ∧
          s = (_calculate_bpm_for_regime co2_gkm fuel_type r).2.1 ∧
          t = totalGrossFor co2_gkm fuel_type r ∧
          l.find? (fun x => decide (totalGrossFor co2_gkm fuel_type x = t)) = some r))
  | [], br, bg, bs, bt =>
    ⟨br, bg, bs, bt, rfl, le_refl _, by simp, Or.inl ⟨rfl, rfl, rfl, rfl⟩⟩
  | x :: xs, br, bg, bs, bt => by
    have hx : (_calculate_bpm_for_regime co2_gkm fuel_type x).2.2
        = totalGrossFor co2_gkm fuel_type x := rfl
    by_cases hlt : (_calculate_bpm_for_regime co2_gkm fuel_type x).2.2 < bt
    · obtain ⟨r, g, s, t, heq, htle, hall, hdisj⟩ :=
        bestLoop_go co2_gkm fuel_type xs x
          (_calculate_bpm_for_regime co2_gkm fuel_type x).1
          (_calculate_bpm_for_regime co2_gkm fuel_type x).2.1
          (_calculate_bpm_for_regime co2_gkm fuel_type x).2.2
      refine ⟨r, g, s, t, ?_, ?_, ?_, ?_⟩
      · simpa [bestLoop, hlt] using heq
      · exact le_of_lt (lt_of_le_of_lt htle hlt)
      · intro y hy
        rcases List.mem_cons.mp hy with hy | hy
        · subst hy; rw [← hx]; exact htle
        · exact hall y hy
      · rcases hdisj with ⟨hr, hg, hs, ht⟩ | ⟨hlt2, hg, hs, ht, hhead⟩
        · refine Or.inr ⟨ht ▸ (hx ▸ hlt), ?_, ?_, ?_, ?_⟩
          · rw [hg, hr]
          · rw [hs, hr]
          · rw [ht, hr, ← hx]
          · have hxt : totalGrossFor co2_gkm fuel_type x = t := by rw [ht, hx]
            simp [List.find?_cons, hxt, hr]
        · refine Or.inr ⟨lt_trans hlt2 (hx ▸ hlt), hg, hs, ht, ?_⟩
          have hxt : ¬ totalGrossFor co2_gkm fuel_type x = t := by
            rw [← hx]; exact ne_of_gt hlt2
          simp only [List.find?_cons, hxt, decide_False]
          exact hhead
    · obtain ⟨r, g, s, t, heq, htle, hall, hdisj⟩ :=
        bestLoop_go co2_gkm fuel_type xs br bg bs bt
      refine ⟨r, g, s, t, ?_, htle, ?_, ?_⟩
      · simpa [bestLoop, hlt] using heq
      · intro y hy
        rcases List.mem_cons.mp hy with hy | hy
        · subst hy; rw [← hx]; exact le_trans htle (not_lt.mp hlt)
        · exact hall y hy
      · rcases hdisj with ⟨hr, hg, hs, ht⟩ | ⟨hlt2, hg, hs, ht, hhead⟩
        · exact Or.inl ⟨hr, hg, hs, ht⟩
        · refine Or.inr ⟨hlt2, hg, hs, ht, ?_⟩
          have hxt : ¬ totalGrossFor co2_gkm fuel_type x = t := by
            rw [← hx]
            exact ne_of_gt (lt_of_lt_of_le hlt2 (not_lt.mp hlt))
          simp only [List.find?_cons, hxt, decide_False]
          exact hhead

/-- The selection loop, started the way `calculate_bpm` starts it, returns the
first regime in list order whose total gross attains the minimum. -/
theorem bestLoop_spec (co2_gkm : ℤ) (fuel_type : String) (l : List Regime) (h : l ≠ []) :
    ∃ r g s t,
      bestLoop co2_gkm fuel_type l none = some (r, g, s, t) ∧
      g = (_calculate_bpm_for_regime co2_gkm fuel_type r).1 ∧
      s = (_calculate_bpm_for_regime co2_gkm fuel_type r).2.1 ∧
      t = totalGrossFor co2_gkm fuel_type r ∧
      (∀ x ∈ l, t ≤ totalGrossFor co2_gkm fuel_type x) ∧
      l.find? (fun x => decide (totalGrossFor co2_gkm fuel_type x = t)) = some r := by
  obtain ⟨x, xs, rfl⟩ : ∃ y ys, l = y :: ys := by
    cases l with
    | nil => exact absurd rfl h
    | cons y ys => exact ⟨y, ys, rfl⟩
  have hx : (_calculate_bpm_for_regime co2_gkm fuel_type x).2.2
      = totalGrossFor co2_gkm fuel_type x := rfl
  obtain ⟨r, g, s, t, heq, htle, hall, hdisj⟩ :=
    bestLoop_go co2_gkm fuel_type xs x
      (_calculate_bpm_for_regime co2_gkm fuel_type x).1
      (_calculate_bpm_for_regime co2_gkm fuel_type x).2.1
      (_calculate_bpm_for_regime co2_gkm fuel_type x).2.2
  have heq' : bestLoop co2_gkm fuel_type (x :: xs) none = some (r, g, s, t) := by
    simpa [bestLoop] using heq
  rcases hdisj with ⟨hr, hg, hs, ht⟩ | ⟨hlt2, hg, hs, ht, hhead⟩
  · refine ⟨r, g, s, t, heq', ?_, ?_, ?_, ?_, ?_⟩
    · rw [hg, hr]
    · rw [hs, hr]
    · rw [ht, hr, ← hx]
    · intro y hy
      rcases List.mem_cons.mp hy with hy | hy
      · subst hy; rw [← hx]; exact htle
      · exact hall y hy
    · have hxt : totalGrossFor co2_gkm fuel_type x = t := by rw [ht, hx]
      simp [List.find?_cons, hxt, hr]
  · refine ⟨r, g, s, t, heq', hg, hs, ht, ?_, ?_⟩
    · intro y hy
      rcases List.mem_cons.mp hy with hy | hy
      · subst hy; rw [← hx]; exact le_of_lt hlt2
      · exact hall y hy
    · have hxt : ¬ totalGrossFor co2_gkm fuel_type x = t := by
        rw [← hx]; exact ne_of_gt hlt2
      simp [List.filter_cons, hxt]
      exact hhead

theorem regime_2026_find :
    ∃ r, HISTORICAL_BPM_REGIMES.find? (fun r => decide (r.year = 2026)) = some r ∧
      regime_2026 = r := by
  have hs : (HISTORICAL_BPM_REGIMES.find? (fun r => decide (r.year = 2026))).isSome = true := by
    decide
  obtain ⟨r, hr⟩ := Option.isSome_iff_exists.mp hs
  exact ⟨r, hr, by rw [regime_2026, hr]; rfl⟩

theorem regime_2026_mem : regime_2026 ∈ HISTORICAL_BPM_REGIMES := by
  obtain ⟨r, hr, hq⟩ := regime_2026_find
  rw [hq]
  exact List.mem_of_find?_eq_some hr

theorem regime_2026_year : regime_2026.year = 2026 := by
  obtain ⟨r, hr, hq⟩ := regime_2026_find
  rw [hq]
  have h2 := List.find?_some hr
  simpa using h2

theorem catalog_years_le : ∀ r ∈ HISTORICAL_BPM_REGIMES, r.year ≤ 2026 := by decide

theorem catalog_years_ge : ∀ r ∈ HISTORICAL_BPM_REGIMES, 2020 ≤ r.year := by decide

/-- Whenever any regime is applicable, the 2026 regime is applicable. -/
theorem applicable_2026 (d : PyDate) (h : _get_applicable_regimes d ≠ []) :
    regime_2026 ∈ _get_applicable_regimes d := by
  obtain ⟨r, hr⟩ := List.exists_mem_of_ne_nil _ h
  rw [_get_applicable_regimes] at hr
  have hrf := List.mem_filter.mp hr
  have hy : max d.year 2020 ≤ r.year := of_decide_eq_true hrf.2
  have hle : r.year ≤ 2026 := catalog_years_le r hrf.1
  rw [_get_applicable_regimes]
  refine List.mem_filter.mpr ⟨regime_2026_mem, decide_eq_true ?_⟩
  rw [regime_2026_year]
  omega

/-- The result record assembled by `calculate_bpm` when the selection loop
returns a best regime. -/
theorem calculate_bpm_some (co2_gkm : ℤ) (fuel_type : String) (d now : PyDate)
    (r : Regime) (g s t : ℚ)
    (hb : bestLoop co2_gkm (normalize_fuel_type fuel_type) (_get_applicable_regimes d) none
        = some (r, g, s, t)) :
    calculate_bpm co2_gkm fuel_type d now =
      { gross_bpm := round2 g
        rest_bpm := round2 (t *
          (1 - get_depreciation_percentage (calculate_vehicle_age_months d now) / 100))
        depreciation_percentage :=
          get_depreciation_percentage (calculate_vehicle_age_months d now)
        diesel_surcharge := round2 s
        vehicle_age_months := calculate_vehicle_age_months d now
        co2_gkm := co2_gkm
        fuel_type := normalize_fuel_type fuel_type
        regime_year := r.year
        regime_label := r.label
        regime_verified := r.verified
        bpm_2026_regime := round2
          ((_calculate_bpm_for_regime co2_gkm (normalize_fuel_type fuel_type) regime_2026).2.2 *
            (1 - get_depreciation_percentage (calculate_vehicle_age_months d now) / 100))
        regime_savings := round2 (round2
            ((_calculate_bpm_for_regime co2_gkm (normalize_fuel_type fuel_type) regime_2026).2.2 *
              (1 - get_depreciation_percentage (calculate_vehicle_age_months d now) / 100)) -
          round2 (t *
            (1 - get_depreciation_percentage (calculate_vehicle_age_months d now) / 100)))
        pre_wltp_note :=
          if d.year < 2020 ∨ (d.year = 2020 ∧ d.month < 7) then PRE_WLTP_NOTE else "" } := by
  simp only [calculate_bpm, hb]

/-- The fallback record assembled by `calculate_bpm` when no regime is
applicable. -/
theorem calculate_bpm_none (co2_gkm : ℤ) (fuel_type : String) (d now : PyDate)
    (hb : bestLoop co2_gkm (normalize_fuel_type fuel_type) (_get_applicable_regimes d) none
        = none) :
    calculate_bpm co2_gkm fuel_type d now =
      { gross_bpm := round2
          (_calculate_bpm_for_regime co2_gkm (normalize_fuel_type fuel_type) regime_2026).2.2
        rest_bpm := round2
          ((_calculate_bpm_for_regime co2_gkm (normalize_fuel_type fuel_type) regime_2026).2.2 *
            (1 - get_depreciation_percentage (calculate_vehicle_age_months d now) / 100))
        depreciation_percentage :=
          get_depreciation_percentage (calculate_vehicle_age_months d now)
        diesel_surcharge := round2 0
        vehicle_age_months := calculate_vehicle_age_months d now
        co2_gkm := co2_gkm
        fuel_type := normalize_fuel_type fuel_type
        regime_year := regime_2026.year
        regime_label := regime_2026.label
        regime_verified := regime_2026.verified
        bpm_2026_regime := round2
          ((_calculate_bpm_for_regime co2_gkm (normalize_fuel_type fuel_type) regime_2026).2.2 *
            (1 - get_depreciation_percentage (calculate_vehicle_age_months d now) / 100))
        regime_savings := round2 (round2
            ((_calculate_bpm_for_regime co2_gkm (normalize_fuel_type fuel_type) regime_2026).2.2 *
              (1 - get_depreciation_percentage (calculate_vehicle_age_months d now) / 100)) -
          round2
            ((_calculate_bpm_for_regime co2_gkm (normalize_fuel_type fuel_type) regime_2026).2.2 *
              (1 - get_depreciation_percentage (calculate_vehicle_age_months d now) / 100)))
        pre_wltp_note :=
          if d.year < 2020 ∨ (d.year = 2020 ∧ d.month < 7) then PRE_WLTP_NOTE else "" } := by
  simp only [calculate_bpm, hb]

theorem grossFind_of_first (co2_gkm : ℤ) (fb : ℚ) (b : TaxBracket) :
    ∀ l : List TaxBracket, b ∈ l → (b.min ≤ co2_gkm ∧ leMax co2_gkm b.max) →
      (∀ b' ∈ l, b'.min ≤ co2_gkm ∧ leMax co2_gkm b'.max → b' = b) →
      grossFind co2_gkm fb l =
        round2 (((co2_gkm : ℚ) - (b.threshold : ℚ)) * b.rate + b.base)
  | [], hmem, _, _ => absurd hmem (List.not_mem_nil b)
  | x :: xs, hmem, hb, huniq => by
    simp only [grossFind]
    split_ifs with hx
    · have : x = b := huniq x (List.mem_cons_self x xs) hx
      rw [this]
    · have hbx : b ≠ x := fun he => hx (he ▸ hb)
      have hmem' : b ∈ xs := by
        rcases List.mem_cons.mp hmem with h | h
        · exact absurd h hbx
        · exact h
      exact grossFind_of_first co2_gkm fb b xs hmem' hb
        (fun b' hb' hm => huniq b' (List.mem_cons_of_mem x hb') hm)

theorem grossFind_of_no_match (co2_gkm : ℤ) (fb : ℚ) :
    ∀ l : List TaxBracket, (∀ b ∈ l, ¬ (b.min ≤ co2_gkm ∧ leMax co2_gkm b.max)) →
      grossFind co2_gkm fb l = fb
  | [], _ => rfl
  | x :: xs, hno => by
    simp only [grossFind]
    split_ifs with hx
    · exact absurd hx (hno x (List.mem_cons_self x xs))
    · exact grossFind_of_no_match co2_gkm fb xs
        (fun b hb => hno b (List.mem_cons_of_mem x hb))

theorem depFind_le_100 (a : ℤ) (fb : ℚ) (hfb : fb ≤ 100) :
    ∀ l : List DepBracket, depFind a fb l ≤ 100
  | [] => hfb
  | b :: rest => by
    simp only [depFind]
    split_ifs with h
    · exact min_le_right _ _
    · exact depFind_le_100 a fb hfb rest

theorem dep_le_100 (a : ℤ) : get_depreciation_percentage a ≤ 100 := by
  unfold get_depreciation_percentage
  exact depFind_le_100 a _ (min_le_right _ _) _

theorem depFind_nonneg (a : ℤ) (fb : ℚ) (hfb : 0 ≤ fb) :
    ∀ l : List DepBracket,
      (∀ b ∈ l, 0 ≤ b.base_percentage ∧ 0 ≤ b.monthly_addition) → 0 ≤ depFind a fb l
  | [], _ => hfb
  | b :: rest, hl => by
    simp only [depFind]
    split_ifs with h
    · have hb := hl b (List.mem_cons_self b rest)
      have hc : (0 : ℚ) ≤ ((a - b.min_months : ℤ) : ℚ) := by
        have : (0 : ℤ) ≤ a - b.min_months := by
          have := h.1
          omega
        exact_mod_cast this
      exact le_min (add_nonneg hb.1 (mul_nonneg hc hb.2)) (by norm_num)
    · exact depFind_nonneg a fb hfb rest (fun b' hb' => hl b' (List.mem_cons_of_mem b hb'))

theorem dep_nonneg (a : ℤ) : 0 ≤ get_depreciation_percentage a := by
  unfold get_depreciation_percentage
  refine depFind_nonneg a _ ?_ _ ?_
  · refine le_min ?_ (by norm_num)
    norm_num [DEPRECIATION_TABLE, List.getLast?]
  · intro b hb
    fin_cases hb <;> constructor <;> norm_num

theorem depFind_pos (a : ℤ) (fb : ℚ) (b : DepBracket) (l : List DepBracket)
    (h : b.min_months ≤ a ∧ leMax a b.max_months) :
    depFind a fb (b :: l) =
      min (b.base_percentage + ((a - b.min_months : ℤ) : ℚ) * b.monthly_addition) 100 := by
  simp only [depFind]
  rw [if_pos h]

theorem depFind_neg (a : ℤ) (fb : ℚ) (b : DepBracket) (l : List DepBracket)
    (h : ¬ (b.min_months ≤ a ∧ leMax a b.max_months)) :
    depFind a fb (b :: l) = depFind a fb l := by
  simp only [depFind]
  rw [if_neg h]

theorem dep_row0 (a : ℤ) (h1 : 0 ≤ a) (h2 : a ≤ 1) :
    get_depreciation_percentage a =
      min ((0 : ℚ) + ((a - 0 : ℤ) : ℚ) * 12) 100 := by
  unfold get_depreciation_percentage
  simp only [DEPRECIATION_TABLE]
  rw [      depFind_pos _ _ _ _ (by simp only [leMax]; omega)]

theorem dep_row1 (a : ℤ) (h1 : 2 ≤ a) (h2 : a ≤ 3) :
    get_depreciation_percentage a =
      min ((12 : ℚ) + ((a - 1 : ℤ) : ℚ) * 4) 100 := by
  unfold get_depreciation_percentage
  simp only [DEPRECIATION_TABLE]
  rw [      depFind_neg _ _ _ _ (by simp only [leMax]; omega),
      depFind_pos _ _ _ _ (by simp only [leMax]; omega)]

theorem dep_row2 (a : ℤ) (h1 : 4 ≤ a) (h2 : a ≤ 5) :
    get_depreciation_percentage a =
      min ((20 : ℚ) + ((a - 3 : ℤ) : ℚ) * 3.5) 100 := by
  unfold get_depreciation_percentage
  simp only [DEPRECIATION_TABLE]
  rw [      depFind_neg _ _ _ _ (by simp only [leMax]; omega),
      depFind_neg _ _ _ _ (by simp only [leMax]; omega),
      depFind_pos _ _ _ _ (by simp only [leMax]; omega)]

theorem dep_row3 (a : ℤ) (h1 : 6 ≤ a) (h2 : a ≤ 9) :
    get_depreciation_percentage a =
      min ((27 : ℚ) + ((a - 5 : ℤ) : ℚ) * 1.5) 100 := by
  unfold get_depreciation_percentage
  simp only [DEPRECIATION_TABLE]
  rw [      depFind_neg _ _ _ _ (by simp only [leMax]; omega),
      depFind_neg _ _ _ _ (by simp only [leMax]; omega),
      depFind_neg _ _ _ _ (by simp only [leMax]; omega),
      depFind_pos _ _ _ _ (by simp only [leMax]; omega)]

theorem dep_row4 (a : ℤ) (h1 : 10 ≤ a) (h2 : a ≤ 18) :
    get_depreciation_percentage a =
      min ((33 : ℚ) + ((a - 9 : ℤ) : ℚ) * 1) 100 := by
  unfold get_depreciation_percentage
  simp only [DEPRECIATION_TABLE]
  rw [      depFind_neg _ _ _ _ (by simp only [leMax]; omega),
      depFind_neg _ _ _ _ (by simp only [leMax]; omega),
      depFind_neg _ _ _ _ (by simp only [leMax]; omega),
      depFind_neg _ _ _ _ (by simp only [leMax]; omega),
      depFind_pos _ _ _ _ (by simp only [leMax]; omega)]

theorem dep_row5 (a : ℤ) (h1 : 19 ≤ a) (h2 : a ≤ 30) :
    get_depreciation_percentage a =
      min ((42 : ℚ) + ((a - 18 : ℤ) : ℚ) * 0.75) 100 := by
  unfold get_depreciation_percentage
  simp only [DEPRECIATION_TABLE]
  rw [      depFind_neg _ _ _ _ (by simp only [leMax]; omega),
      depFind_neg _ _ _ _ (by simp only [leMax]; omega),
      depFind_neg _ _ _ _ (by simp only [leMax]; omega),
      depFind_neg _ _ _ _ (by simp only [leMax]; omega),
      depFind_neg _ _ _ _ (by simp only [leMax]; omega),
      depFind_pos _ _ _ _ (by simp only [leMax]; omega)]

theorem dep_row6 (a : ℤ) (h1 : 31 ≤ a) (h2 : a ≤ 42) :
    get_depreciation_percentage a =
      min ((51 : ℚ) + ((a - 30 : ℤ) : ℚ) * 0.5) 100 := by
  unfold get_depreciation_percentage
  simp only [DEPRECIATION_TABLE]
  rw [      depFind_neg _ _ _ _ (by simp only [leMax]; omega),
      depFind_neg _ _ _ _ (by simp only [leMax]; omega),
      depFind_neg _ _ _ _ (by simp only [leMax]; omega),
      depFind_neg _ _ _ _ (by simp only [leMax]; omega),
      depFind_neg _ _ _ _ (by simp only [leMax]; omega),
      depFind_neg _ _ _ _ (by simp only [leMax]; omega),
      depFind_pos _ _ _ _ (by simp only [leMax]; omega)]

theorem dep_row7 (a : ℤ) (h1 : 43 ≤ a) (h2 : a ≤ 54) :
    get_depreciation_percentage a =
      min ((57 : ℚ) + ((a - 42 : ℤ) : ℚ) * 0.42) 100 := by
  unfold get_depreciation_percentage
  simp only [DEPRECIATION_TABLE]
  rw [      depFind_neg _ _ _ _ (by simp only [leMax]; omega),
      depFind_neg _ _ _ _ (by simp only [leMax]; omega),
      depFind_neg _ _ _ _ (by simp only [leMax]; omega),
      depFind_neg _ _ _ _ (by simp only [leMax]; omega),
      depFind_neg _ _ _ _ (by simp only [leMax]; omega),
      depFind_neg _ _ _ _ (by simp only [leMax]; omega),
      depFind_neg _ _ _ _ (by simp only [leMax]; omega),
      depFind_pos _ _ _ _ (by simp only [leMax]; omega)]

theorem dep_row8 (a : ℤ) (h1 : 55 ≤ a) (h2 : a ≤ 66) :
    get_depreciation_percentage a =
      min ((62 : ℚ) + ((a - 54 : ℤ) : ℚ) * 0.42) 100 := by
  unfold get_depreciation_percentage
  simp only [DEPRECIATION_TABLE]
  rw [      depFind_neg _ _ _ _ (by simp only [leMax]; omega),
      depFind_neg _ _ _ _ (by simp only [leMax]; omega),
      depFind_neg _ _ _ _ (by simp only [leMax]; omega),
      depFind_neg _ _ _ _ (by simp only [leMax]; omega),
      depFind_neg _ _ _ _ (by simp only [leMax]; omega),
      depFind_neg _ _ _ _ (by simp only [leMax]; omega),
      depFind_neg _ _ _ _ (by simp only [leMax]; omega),
      depFind_neg _ _ _ _ (by simp only [leMax]; omega),
      depFind_pos _ _ _ _ (by simp only [leMax]; omega)]

theorem dep_row9 (a : ℤ) (h1 : 67 ≤ a) (h2 : a ≤ 78) :
    get_depreciation_percentage a =
      min ((67 : ℚ) + ((a - 66 : ℤ) : ℚ) * 0.42) 100 := by
  unfold get_depreciation_percentage
  simp only [DEPRECIATION_TABLE]
  rw [      depFind_neg _ _ _ _ (by simp only [leMax]; omega),
      depFind_neg _ _ _ _ (by simp only [leMax]; omega),
      depFind_neg _ _ _ _ (by simp only [leMax]; omega),
      depFind_neg _ _ _ _ (by simp only [leMax]; omega),
      depFind_neg _ _ _ _ (by simp only [leMax]; omega),
      depFind_neg _ _ _ _ (by simp only [leMax]; omega),
      depFind_neg _ _ _ _ (by simp only [leMax]; omega),
      depFind_neg _ _ _ _ (by simp only [leMax]; omega),
      depFind_neg _ _ _ _ (by simp only [leMax]; omega),
      depFind_pos _ _ _ _ (by simp only [leMax]; omega)]

theorem dep_row10 (a : ℤ) (h1 : 79 ≤ a) (h2 : a ≤ 90) :
    get_depreciation_percentage a =
      min ((72 : ℚ) + ((a - 78 : ℤ) : ℚ) * 0.25) 100 := by
  unfold get_depreciation_percentage
  simp only [DEPRECIATION_TABLE]
  rw [      depFind_neg _ _ _ _ (by simp only [leMax]; omega),
      depFind_neg _ _ _ _ (by simp only [leMax]; omega),
      depFind_neg _ _ _ _ (by simp only [leMax]; omega),
      depFind_neg _ _ _ _ (by simp only [leMax]; omega),
      depFind_neg _ _ _ _ (by simp only [leMax]; omega),
      depFind_neg _ _ _ _ (by simp only [leMax]; omega),
      depFind_neg _ _ _ _ (by simp only [leMax]; omega),
      depFind_neg _ _ _ _ (by simp only [leMax]; omega),
      depFind_neg _ _ _ _ (by simp only [leMax]; omega),
      depFind_neg _ _ _ _ (by simp only [leMax]; omega),
      depFind_pos _ _ _ _ (by simp only [leMax]; omega)]

theorem dep_row11 (a : ℤ) (h1 : 91 ≤ a) (h2 : a ≤ 102) :
    get_depreciation_percentage a =
      min ((75 : ℚ) + ((a - 90 : ℤ) : ℚ) * 0.25) 100 := by
  unfold get_depreciation_percentage
  simp only [DEPRECIATION_TABLE]
  rw [      depFind_neg _ _ _ _ (by simp only [leMax]; omega),
      depFind_neg _ _ _ _ (by simp only [leMax]; omega),
      depFind_neg _ _ _ _ (by simp only [leMax]; omega),
      depFind_neg _ _ _ _ (by simp only [leMax]; omega),
      depFind_neg _ _ _ _ (by simp only [leMax]; omega),
      depFind_neg _ _ _ _ (by simp only [leMax]; omega),
      depFind_neg _ _ _ _ (by simp only [leMax]; omega),
      depFind_neg _ _ _ _ (by simp only [leMax]; omega),
      depFind_neg _ _ _ _ (by simp only [leMax]; omega),
      depFind_neg _ _ _ _ (by simp only [leMax]; omega),
      depFind_neg _ _ _ _ (by simp only [leMax]; omega),
      depFind_pos _ _ _ _ (by simp only [leMax]; omega)]

theorem dep_row12 (a : ℤ) (h1 : 103 ≤ a) (h2 : a ≤ 114) :
    get_depreciation_percentage a =
      min ((78 : ℚ) + ((a - 102 : ℤ) : ℚ) * 0.25) 100 := by
  unfold get_depreciation_percentage
  simp only [DEPRECIATION_TABLE]
  rw [      depFind_neg _ _ _ _ (by simp only [leMax]; omega),
      depFind_neg _ _ _ _ (by simp only [leMax]; omega),
      depFind_neg _ _ _ _ (by simp only [leMax]; omega),
      depFind_neg _ _ _ _ (by simp only [leMax]; omega),
      depFind_neg _ _ _ _ (by simp only [leMax]; omega),
      depFind_neg _ _ _ _ (by simp only [leMax]; omega),
      depFind_neg _ _ _ _ (by simp only [leMax]; omega),
      depFind_neg _ _ _ _ (by simp only [leMax]; omega),
      depFind_neg _ _ _ _ (by simp only [leMax]; omega),
      depFind_neg _ _ _ _ (by simp only [leMax]; omega),
      depFind_neg _ _ _ _ (by simp only [leMax]; omega),
      depFind_neg _ _ _ _ (by simp only [leMax]; omega),
      depFind_pos _ _ _ _ (by simp only [leMax]; omega)]

theorem dep_tail (a : ℤ) (h1 : 114 ≤ a) :
    get_depreciation_percentage a =
      min ((81 : ℚ) + ((a - 114 : ℤ) : ℚ) * 0.19) 100 := by
  rcases eq_or_lt_of_le h1 with he | hgt
  · have ha : a = 114 := he.symm
    subst ha
    rw [dep_row12 114 (by omega) (by omega)]
    norm_num
  · have h115 : 115 ≤ a := hgt
    unfold get_depreciation_percentage
    simp only [DEPRECIATION_TABLE]
    rw [        depFind_neg _ _ _ _ (by simp only [leMax]; omega),
        depFind_neg _ _ _ _ (by simp only [leMax]; omega),
        depFind_neg _ _ _ _ (by simp only [leMax]; omega),
        depFind_neg _ _ _ _ (by simp only [leMax]; omega),
        depFind_neg _ _ _ _ (by simp only [leMax]; omega),
        depFind_neg _ _ _ _ (by simp only [leMax]; omega),
        depFind_neg _ _ _ _ (by simp only [leMax]; omega),
        depFind_neg _ _ _ _ (by simp only [leMax]; omega),
        depFind_neg _ _ _ _ (by simp only [leMax]; omega),
        depFind_neg _ _ _ _ (by simp only [leMax]; omega),
        depFind_neg _ _ _ _ (by simp only [leMax]; omega),
        depFind_neg _ _ _ _ (by simp only [leMax]; omega),
        depFind_neg _ _ _ _ (by simp only [leMax]; omega)]
    exact depFind_pos _ _ _ _ ⟨(by show (114 : ℤ) ≤ a; omega), (by show True; exact trivial)⟩

theorem min_affine_le {base add x y : ℚ} (hadd : 0 ≤ add) (hxy : x ≤ y) :
    min (base + x * add) 100 ≤ min (base + y * add) 100 :=
  min_le_min (add_le_add_left (mul_le_mul_of_nonneg_right hxy hadd) base) (le_refl _)

theorem dep_step (a : ℤ) (h : 0 ≤ a) :
    get_depreciation_percentage a ≤ get_depreciation_percentage (a + 1) := by
  rcases (by omega : (0 ≤ a ∧ a ≤ 0) ∨ a = 1 ∨ (2 ≤ a ∧ a ≤ 2) ∨ a = 3 ∨ (4 ≤ a ∧ a ≤ 4) ∨ a = 5 ∨ (6 ≤ a ∧ a ≤ 8) ∨ a = 9 ∨ (10 ≤ a ∧ a ≤ 17) ∨ a = 18 ∨ (19 ≤ a ∧ a ≤ 29) ∨ a = 30 ∨ (31 ≤ a ∧ a ≤ 41) ∨ a = 42 ∨ (43 ≤ a ∧ a ≤ 53) ∨ a = 54 ∨ (55 ≤ a ∧ a ≤ 65) ∨ a = 66 ∨ (67 ≤ a ∧ a ≤ 77) ∨ a = 78 ∨ (79 ≤ a ∧ a ≤ 89) ∨ a = 90 ∨ (91 ≤ a ∧ a ≤ 101) ∨ a = 102 ∨ (103 ≤ a ∧ a ≤ 113) ∨ 114 ≤ a) with
      ⟨h1, h2⟩ | h | ⟨h1, h2⟩ | h | ⟨h1, h2⟩ | h | ⟨h1, h2⟩ | h | ⟨h1, h2⟩ | h | ⟨h1, h2⟩ | h | ⟨h1, h2⟩ | h | ⟨h1, h2⟩ | h | ⟨h1, h2⟩ | h | ⟨h1, h2⟩ | h | ⟨h1, h2⟩ | h | ⟨h1, h2⟩ | h | ⟨h1, h2⟩ | htail
  · rw [dep_row0 a (by omega) (by omega), dep_row0 (a + 1) (by omega) (by omega)]
    exact min_affine_le (by norm_num) (by push_cast; linarith)
  · subst h
    rw [dep_row0 1 (by norm_num) (by norm_num),
      dep_row1 (1 + 1) (by norm_num) (by norm_num)]
    norm_num [min_def]
  · rw [dep_row1 a (by omega) (by omega), dep_row1 (a + 1) (by omega) (by omega)]
    exact min_affine_le (by norm_num) (by push_cast; linarith)
  · subst h
    rw [dep_row1 3 (by norm_num) (by norm_num),
      dep_row2 (3 + 1) (by norm_num) (by norm_num)]
    norm_num [min_def]
  · rw [dep_row2 a (by omega) (by omega), dep_row2 (a + 1) (by omega) (by omega)]
    exact min_affine_le (by norm_num) (by push_cast; linarith)
  · subst h
    rw [dep_row2 5 (by norm_num) (by norm_num),
      dep_row3 (5 + 1) (by norm_num) (by norm_num)]
    norm_num [min_def]
  · rw [dep_row3 a (by omega) (by omega), dep_row3 (a + 1) (by omega) (by omega)]
    exact min_affine_le (by norm_num) (by push_cast; linarith)
  · subst h
    rw [dep_row3 9 (by norm_num) (by norm_num),
      dep_row4 (9 + 1) (by norm_num) (by norm_num)]
    norm_num [min_def]
  · rw [dep_row4 a (by omega) (by omega), dep_row4 (a + 1) (by omega) (by omega)]
    exact min_affine_le (by norm_num) (by push_cast; linarith)
  · subst h
    rw [dep_row4 18 (by norm_num) (by norm_num),
      dep_row5 (18 + 1) (by norm_num) (by norm_num)]
    norm_num [min_def]
  · rw [dep_row5 a (by omega) (by omega), dep_row5 (a + 1) (by omega) (by omega)]
    exact min_affine_le (by norm_num) (by push_cast; linarith)
  · subst h
    rw [dep_row5 30 (by norm_num) (by norm_num),
      dep_row6 (30 + 1) (by norm_num) (by norm_num)]
    norm_num [min_def]
  · rw [dep_row6 a (by omega) (by omega), dep_row6 (a + 1) (by omega) (by omega)]
    exact min_affine_le (by norm_num) (by push_cast; linarith)
  · subst h
    rw [dep_row6 42 (by norm_num) (by norm_num),
      dep_row7 (42 + 1) (by norm_num) (by norm_num)]
    norm_num [min_def]
  · rw [dep_row7 a (by omega) (by omega), dep_row7 (a + 1) (by omega) (by omega)]
    exact min_affine_le (by norm_num) (by push_cast; linarith)
  · subst h
    rw [dep_row7 54 (by norm_num) (by norm_num),
      dep_row8 (54 + 1) (by norm_num) (by norm_num)]
    norm_num [min_def]
  · rw [dep_row8 a (by omega) (by omega), dep_row8 (a + 1) (by omega) (by omega)]
    exact min_affine_le (by norm_num) (by push_cast; linarith)
  · subst h
    rw [dep_row8 66 (by norm_num) (by norm_num),
      dep_row9 (66 + 1) (by norm_num) (by norm_num)]
    norm_num [min_def]
  · rw [dep_row9 a (by omega) (by omega), dep_row9 (a + 1) (by omega) (by omega)]
    exact min_affine_le (by norm_num) (by push_cast; linarith)
  · subst h
    rw [dep_row9 78 (by norm_num) (by norm_num),
      dep_row10 (78 + 1) (by norm_num) (by norm_num)]
    norm_num [min_def]
  · rw [dep_row10 a (by omega) (by omega), dep_row10 (a + 1) (by omega) (by omega)]
    exact min_affine_le (by norm_num) (by push_cast; linarith)
  · subst h
    rw [dep_row10 90 (by norm_num) (by norm_num),
      dep_row11 (90 + 1) (by norm_num) (by norm_num)]
    norm_num [min_def]
  · rw [dep_row11 a (by omega) (by omega), dep_row11 (a + 1) (by omega) (by omega)]
    exact min_affine_le (by norm_num) (by push_cast; linarith)
  · subst h
    rw [dep_row11 102 (by norm_num) (by norm_num),
      dep_row12 (102 + 1) (by norm_num) (by norm_num)]
    norm_num [min_def]
  · rw [dep_row12 a (by omega) (by omega), dep_row12 (a + 1) (by omega) (by omega)]
    exact min_affine_le (by norm_num) (by push_cast; linarith)
  · rw [dep_tail a (by omega), dep_tail (a + 1) (by omega)]
    exact min_affine_le (by norm_num) (by push_cast; linarith)

theorem dep_mono {a b : ℤ} (ha : 0 ≤ a) (hab : a ≤ b) :
    get_depreciation_percentage a ≤ get_depreciation_percentage b := by
  obtain ⟨n, rfl⟩ := Int.le.dest hab
  clear hab
  induction n with
  | zero => norm_num
  | succ k ih =>
    have hk : a + ((k : ℕ) + 1 : ℕ) = (a + (k : ℕ)) + 1 := by push_cast; ring
    rw [hk]
    exact le_trans ih (dep_step (a + (k : ℕ)) (by omega))

theorem normalize_mem (s : String) :
    normalize_fuel_type s ∈ (["petrol", "diesel", "electric", "hybrid", "lpg"] : List String) := by
  unfold normalize_fuel_type
  dsimp only
  split_ifs <;> simp

theorem calculate_bpm_fuel_type (co2_gkm : ℤ) (fuel_type : String) (d now : PyDate) :
    (calculate_bpm co2_gkm fuel_type d now).fuel_type = normalize_fuel_type fuel_type := by
  cases hb : bestLoop co2_gkm (normalize_fuel_type fuel_type) (_get_applicable_regimes d) none with
  | none => rw [calculate_bpm_none _ _ _ _ hb]
  | some x =>
    obtain ⟨r, g, s, t⟩ := x
    rw [calculate_bpm_some _ _ _ _ r g s t hb]

theorem calculate_bpm_age (co2_gkm : ℤ) (fuel_type : String) (d now : PyDate) :
    (calculate_bpm co2_gkm fuel_type d now).vehicle_age_months =
      calculate_vehicle_age_months d now := by
  cases hb : bestLoop co2_gkm (normalize_fuel_type fuel_type) (_get_applicable_regimes d) none with
  | none => rw [calculate_bpm_none _ _ _ _ hb]
  | some x =>
    obtain ⟨r, g, s, t⟩ := x
    rw [calculate_bpm_some _ _ _ _ r g s t hb]

/-- C1: for every vehicle input (CO2, normalized fuel type, first-registration
date), `calculate_bpm` selects, among all catalog regimes whose year is at
least `max(registration year, 2020)`, a regime whose total gross tax (bracket
tax plus diesel surcharge, or 0 for an exempt EV) is minimal over that
eligible set, and when several eligible regimes attain the same minimal gross,
the one appearing first in ascending-year catalog order is selected (strict
`<` comparison in a linear scan); `List.find?` picks exactly the first
minimizer in catalog order. -/
theorem claim_C1 (co2_gkm : ℤ) (fuel_type : String) (d now : PyDate)
    (h : _get_applicable_regimes d ≠ []) :
    _get_applicable_regimes d =
        HISTORICAL_BPM_REGIMES.filter (fun r => decide (max d.year 2020 ≤ r.year)) ∧
    ∃ r g s t,
      bestLoop co2_gkm (normalize_fuel_type fuel_type) (_get_applicable_regimes d) none
          = some (r, g, s, t) ∧
      t = totalGrossFor co2_gkm (normalize_fuel_type fuel_type) r ∧
      (∀ x ∈ _get_applicable_regimes d,
        t ≤ totalGrossFor co2_gkm (normalize_fuel_type fuel_type) x) ∧
      (_get_applicable_regimes d).find?
          (fun x => decide (totalGrossFor co2_gkm (normalize_fuel_type fuel_type) x = t))
        = some r ∧
      (calculate_bpm co2_gkm fuel_type d now).regime_year = r.year ∧
      (calculate_bpm co2_gkm fuel_type d now).regime_label = r.label := by
  refine ⟨rfl, ?_⟩
  obtain ⟨r, g, s, t, hb, hg, hs, ht, hmin, hfind⟩ :=
    bestLoop_spec co2_gkm (normalize_fuel_type fuel_type) _ h
  exact ⟨r, g, s, t, hb, ht, hmin, hfind,
    by rw [calculate_bpm_some _ _ _ _ r g s t hb],
    by rw [calculate_bpm_some _ _ _ _ r g s t hb]⟩

theorem claim_C1_witness :
    ∃ r g s t,
      bestLoop 209 (normalize_fuel_type "petrol")
          (_get_applicable_regimes ⟨2014, 4, 1⟩) none = some (r, g, s, t) ∧
      t = totalGrossFor 209 (normalize_fuel_type "petrol") r ∧
      (∀ x ∈ _get_applicable_regimes ⟨2014, 4, 1⟩,
        t ≤ totalGrossFor 209 (normalize_fuel_type "petrol") x) ∧
      (_get_applicable_regimes ⟨2014, 4, 1⟩).find?
          (fun x => decide (totalGrossFor 209 (normalize_fuel_type "petrol") x = t))
        = some r ∧
      (calculate_bpm 209 "petrol" ⟨2014, 4, 1⟩ ⟨2026, 4, 1⟩).regime_year = r.year ∧
      (calculate_bpm 209 "petrol" ⟨2014, 4, 1⟩ ⟨2026, 4, 1⟩).regime_label = r.label :=
  (claim_C1 209 "petrol" ⟨2014, 4, 1⟩ ⟨2026, 4, 1⟩ (by decide)).2

/-- C2 as frozen is false on the code: there is no `InvalidInputError`
anywhere. An unrecognized fuel string is silently normalized to `"petrol"`, a
registration date in the future is silently clamped to age 0 months, and a
negative CO2 value flows through the last-bracket fallback into a normal
result record. -/
theorem claim_C2_counterexample :
    normalize_fuel_type "kerosene" = "petrol" ∧
    calculate_vehicle_age_months ⟨2030, 1, 1⟩ ⟨2026, 6, 15⟩ = 0 ∧
    (calculate_bpm (-1) "kerosene" ⟨2030, 1, 1⟩ ⟨2026, 6, 15⟩).fuel_type = "petrol" ∧
    (calculate_bpm (-1) "kerosene" ⟨2030, 1, 1⟩ ⟨2026, 6, 15⟩).regime_year = 2026 := by
  have happ : _get_applicable_regimes ⟨2030, 1, 1⟩ = [] := by decide
  have hb : bestLoop (-1) (normalize_fuel_type "kerosene")
      (_get_applicable_regimes ⟨2030, 1, 1⟩) none = none := by rw [happ]; rfl
  refine ⟨by decide, by decide, ?_, ?_⟩
  · rw [calculate_bpm_none _ _ _ _ hb]
    decide
  · rw [calculate_bpm_none _ _ _ _ hb]
    exact regime_2026_year

/-- C2 amended: `calculate_bpm` never raises: it is total on all inputs.
Unrecognized fuel strings are normalized into the five-value enum (defaulting
to petrol), future registration dates are clamped to a non-negative age, and
negative CO2 values are still evaluated; every call returns a complete
result. -/
theorem claim_C2 (co2_gkm : ℤ) (fuel_type : String) (d now : PyDate) :
    (calculate_bpm co2_gkm fuel_type d now).fuel_type ∈
      (["petrol", "diesel", "electric", "hybrid", "lpg"] : List String) ∧
    0 ≤ (calculate_bpm co2_gkm fuel_type d now).vehicle_age_months := by
  rw [calculate_bpm_fuel_type, calculate_bpm_age]
  exact ⟨normalize_mem fuel_type, le_max_left 0 _⟩

/-- C3 as frozen is false on the code: `calculate_bpm` reads the wall clock
through `datetime.now()`, so two calls with identical (CO2, fuel,
registration-date) arguments made on different days return different
results. -/
theorem claim_C3_counterexample :
    calculate_bpm 209 "petrol" ⟨2014, 4, 1⟩ ⟨2026, 1, 15⟩ ≠
      calculate_bpm 209 "petrol" ⟨2014, 4, 1⟩ ⟨2027, 1, 15⟩ := by
  intro hcontra
  have h1 : (calculate_bpm 209 "petrol" ⟨2014, 4, 1⟩ ⟨2026, 1, 15⟩).vehicle_age_months
      = 141 := by
    rw [calculate_bpm_age]
    decide
  have h2 : (calculate_bpm 209 "petrol" ⟨2014, 4, 1⟩ ⟨2027, 1, 15⟩).vehicle_age_months
      = 153 := by
    rw [calculate_bpm_age]
    decide
  rw [hcontra, h2] at h1
  exact absurd h1 (by decide)

/-- C3 amended: `calculate_bpm` is deterministic given the clock: the result
depends on the hidden `datetime.now()` only through the computed vehicle age,
so two calls with identical (CO2, fuel, registration-date) arguments whose
clock readings yield the same age in months return identical results. -/
theorem claim_C3 (co2_gkm : ℤ) (fuel_type : String) (d now now' : PyDate)
    (h : calculate_vehicle_age_months d now = calculate_vehicle_age_months d now') :
    calculate_bpm co2_gkm fuel_type d now = calculate_bpm co2_gkm fuel_type d now' := by
  cases hb : bestLoop co2_gkm (normalize_fuel_type fuel_type) (_get_applicable_regimes d) none with
  | none =>
    rw [calculate_bpm_none _ _ _ _ hb, calculate_bpm_none _ _ _ _ hb, h]
  | some x =>
    obtain ⟨r, g, s, t⟩ := x
    rw [calculate_bpm_some _ _ _ _ r g s t hb, calculate_bpm_some _ _ _ _ r g s t hb, h]

theorem claim_C3_witness :
    calculate_bpm 100 "diesel" ⟨2020, 1, 1⟩ ⟨2026, 5, 10⟩ =
      calculate_bpm 100 "diesel" ⟨2020, 1, 1⟩ ⟨2026, 5, 20⟩ :=
  claim_C3 100 "diesel" ⟨2020, 1, 1⟩ ⟨2026, 5, 10⟩ ⟨2026, 5, 20⟩ (by decide)

/-- C4: for every non-negative CO2 value and ordered bracket list, the gross
evaluator returns `(co2 - threshold) * rate + base` of the unique matching
bracket, rounded to 2 decimals, and when CO2 exceeds every bracket's upper
bound it applies the last bracket's formula, also rounded. -/
theorem claim_C4 (co2_gkm : ℤ) (brackets : List TaxBracket) (b : TaxBracket)
    (_hco2 : 0 ≤ co2_gkm) :
    (b ∈ brackets → (b.min ≤ co2_gkm ∧ leMax co2_gkm b.max) →
      (∀ b' ∈ brackets, b'.min ≤ co2_gkm ∧ leMax co2_gkm b'.max → b' = b) →
      _calculate_gross_bpm_for_brackets co2_gkm brackets =
        round2 (((co2_gkm : ℚ) - (b.threshold : ℚ)) * b.rate + b.base)) ∧
    (brackets ≠ [] → (∀ b' ∈ brackets, ¬ leMax co2_gkm b'.max) →
      ∃ lb, brackets.getLast? = some lb ∧
        _calculate_gross_bpm_for_brackets co2_gkm brackets =
          round2 (((co2_gkm : ℚ) - (lb.threshold : ℚ)) * lb.rate + lb.base)) := by
  constructor
  · intro hmem hmatch huniq
    unfold _calculate_gross_bpm_for_brackets
    exact grossFind_of_first co2_gkm _ b brackets hmem hmatch huniq
  · intro hne hno
    obtain ⟨lb, hlb⟩ :=
      Option.isSome_iff_exists.mp (List.getLast?_isSome.mpr hne)
    refine ⟨lb, hlb, ?_⟩
    unfold _calculate_gross_bpm_for_brackets
    rw [grossFind_of_no_match co2_gkm _ brackets
      (fun b' hb' hc => hno b' hb' hc.2), hlb]

theorem claim_C4_witness :
    (_calculate_gross_bpm_for_brackets 209 CO2_BRACKETS =
      round2 (((209 : ℚ) - 155) * 594 + 14538)) ∧
    (∃ lb, (CO2_BRACKETS.take 4).getLast? = some lb ∧
      _calculate_gross_bpm_for_brackets 209 (CO2_BRACKETS.take 4) =
        round2 (((209 : ℚ) - (lb.threshold : ℚ)) * lb.rate + lb.base)) :=
  ⟨(claim_C4 209 CO2_BRACKETS
      { min := 156, max := none, threshold := 155, rate := 594, base := 14538 }
      (by decide)).1 (by decide) (by decide) (by decide),
   (claim_C4 209 (CO2_BRACKETS.take 4)
      { min := 156, max := none, threshold := 155, rate := 594, base := 14538 }
      (by decide)).2 (by decide) (by decide)⟩

/-- C5: the diesel surcharge is 0 for every non-diesel fuel, 0 for diesel at
or below the regime threshold, and `(co2 - subtract) * rate` rounded to 2
decimals above it; under the 2026 constants (threshold 70, subtract 69, rate
114.83) the surcharge is 0 at CO2 = 70 and strictly positive at CO2 = 71. -/
theorem claim_C5 :
    (∀ (co2_gkm : ℤ) (fuel_type : String) (threshold subtract : ℤ) (rate : ℚ),
      fuel_type ≠ "diesel" →
      _calculate_diesel_surcharge_for_regime co2_gkm fuel_type threshold subtract rate = 0) ∧
    (∀ (co2_gkm threshold subtract : ℤ) (rate : ℚ), co2_gkm ≤ threshold →
      _calculate_diesel_surcharge_for_regime co2_gkm "diesel" threshold subtract rate = 0) ∧
    (∀ (co2_gkm threshold subtract : ℤ) (rate : ℚ), threshold < co2_gkm →
      _calculate_diesel_surcharge_for_regime co2_gkm "diesel" threshold subtract rate =
        round2 (((co2_gkm - subtract : ℤ) : ℚ) * rate)) ∧
    calculate_diesel_surcharge 70 "diesel" = 0 ∧
    0 < calculate_diesel_surcharge 71 "diesel" := by
  refine ⟨?_, ?_, ?_, ?_, ?_⟩
  · intro co2_gkm fuel_type threshold subtract rate hfe
    unfold _calculate_diesel_surcharge_for_regime
    rw [if_pos hfe]
  · intro co2_gkm threshold subtract rate hle
    unfold _calculate_diesel_surcharge_for_regime
    rw [if_neg (by simp), if_pos hle]
  · intro co2_gkm threshold subtract rate hgt
    unfold _calculate_diesel_surcharge_for_regime
    rw [if_neg (by simp), if_neg (not_le.mpr hgt)]
  · norm_num [calculate_diesel_surcharge, _calculate_diesel_surcharge_for_regime,
      DIESEL_SURCHARGE_THRESHOLD]
  · norm_num [calculate_diesel_surcharge, _calculate_diesel_surcharge_for_regime,
      DIESEL_SURCHARGE_THRESHOLD, DIESEL_SURCHARGE_SUBTRACT, DIESEL_SURCHARGE_RATE,
      round2_eq]

theorem claim_C5_witness :
    _calculate_diesel_surcharge_for_regime 300 "petrol" 70 69 114.83 = 0 ∧
    _calculate_diesel_surcharge_for_regime 50 "diesel" 70 69 114.83 = 0 ∧
    _calculate_diesel_surcharge_for_regime 71 "diesel" 70 69 114.83 =
      round2 (((71 - 69 : ℤ) : ℚ) * 114.83) :=
  ⟨claim_C5.1 300 "petrol" 70 69 114.83 (by decide),
   claim_C5.2.1 50 70 69 114.83 (by decide),
   claim_C5.2.2.1 71 70 69 114.83 (by decide)⟩

/-- C6: the depreciation percentage is monotonically non-decreasing in the
age and lies in [0, 100] for every integer age from 0 to 1200 months, the
100 percent cap being applied through the `min` in the table lookup. -/
theorem claim_C6 (a b : ℕ) (hab : a ≤ b) (_hb1200 : b ≤ 1200) :
    get_depreciation_percentage (a : ℤ) ≤ get_depreciation_percentage (b : ℤ) ∧
    0 ≤ get_depreciation_percentage (a : ℤ) ∧
    get_depreciation_percentage (a : ℤ) ≤ 100 :=
  ⟨dep_mono (Int.natCast_nonneg a) (by exact_mod_cast hab),
   dep_nonneg _, dep_le_100 _⟩

theorem claim_C6_witness :
    get_depreciation_percentage ((100 : ℕ) : ℤ) ≤ get_depreciation_percentage ((500 : ℕ) : ℤ) ∧
    0 ≤ get_depreciation_percentage ((100 : ℕ) : ℤ) ∧
    get_depreciation_percentage ((100 : ℕ) : ℤ) ≤ 100 :=
  claim_C6 100 500 (by decide) (by decide)

/-- C7: for every electric vehicle under a regime with the `ev_exempt` flag
set, the gross tax, the diesel surcharge and the total are all exactly 0
regardless of CO2 and brackets; in particular the 2022 catalog regime is
EV-exempt and a CO2 = 0 electric vehicle has gross 0 under it. -/
theorem claim_C7 :
    (∀ (co2_gkm : ℤ) (regime : Regime), regime.ev_exempt = true →
      _calculate_bpm_for_regime co2_gkm "electric" regime = (0, 0, 0)) ∧
    ∃ r2022 ∈ HISTORICAL_BPM_REGIMES, r2022.year = 2022 ∧ r2022.ev_exempt = true ∧
      _calculate_bpm_for_regime 0 "electric" r2022 = (0, 0, 0) := by
  have hgen : ∀ (co2_gkm : ℤ) (regime : Regime), regime.ev_exempt = true →
      _calculate_bpm_for_regime co2_gkm "electric" regime = (0, 0, 0) := by
    intro co2_gkm regime hex
    unfold _calculate_bpm_for_regime
    rw [if_pos ⟨rfl, hex⟩]
  refine ⟨hgen, HISTORICAL_BPM_REGIMES.get ⟨2, by norm_num [HISTORICAL_BPM_REGIMES]⟩,
    List.get_mem _ _ _, rfl, rfl, hgen 0 _ rfl⟩

theorem claim_C7_witness :
    _calculate_bpm_for_regime 150 "electric"
      (HISTORICAL_BPM_REGIMES.get ⟨0, by norm_num [HISTORICAL_BPM_REGIMES]⟩) = (0, 0, 0) :=
  claim_C7.1 150 _ rfl

/-- C8: when the set of applicable regimes is empty (which happens exactly for
registration years after 2026), `calculate_bpm` does not fail: it falls back
to the 2026 regime's own figures and returns a complete result whose net tax
equals the 2026 baseline and whose savings are zero. -/
theorem claim_C8 (co2_gkm : ℤ) (fuel_type : String) (d now : PyDate)
    (h : _get_applicable_regimes d = []) :
    (calculate_bpm co2_gkm fuel_type d now).regime_year = 2026 ∧
    (calculate_bpm co2_gkm fuel_type d now).regime_label = regime_2026.label ∧
    (calculate_bpm co2_gkm fuel_type d now).gross_bpm =
      round2 (totalGrossFor co2_gkm (normalize_fuel_type fuel_type) regime_2026) ∧
    (calculate_bpm co2_gkm fuel_type d now).rest_bpm =
      (calculate_bpm co2_gkm fuel_type d now).bpm_2026_regime ∧
    (calculate_bpm co2_gkm fuel_type d now).regime_savings = 0 := by
  have hb : bestLoop co2_gkm (normalize_fuel_type fuel_type)
      (_get_applicable_regimes d) none = none := by rw [h]; rfl
  rw [calculate_bpm_none _ _ _ _ hb]
  exact ⟨regime_2026_year, rfl, rfl, rfl, by rw [sub_self, round2_zero]⟩

theorem claim_C8_witness :
    _get_applicable_regimes ⟨2030, 1, 1⟩ = [] ∧
    (calculate_bpm 120 "diesel" ⟨2030, 1, 1⟩ ⟨2026, 6, 15⟩).regime_year = 2026 ∧
    (calculate_bpm 120 "diesel" ⟨2030, 1, 1⟩ ⟨2026, 6, 15⟩).regime_savings = 0 := by
  have h : _get_applicable_regimes ⟨2030, 1, 1⟩ = [] := by decide
  have hc := claim_C8 120 "diesel" ⟨2030, 1, 1⟩ ⟨2026, 6, 15⟩ h
  exact ⟨h, hc.1, hc.2.2.2.2⟩

/-- C9 as frozen is false on the code: the depreciation percentage is not a
flat, capped 92 percent for ages of at least 120 months; at exactly 120
months the table yields 82.14 percent, and the percentage keeps growing with
age (capped only at 100). -/
theorem claim_C9_counterexample :
    get_depreciation_percentage 120 = 8214 / 100 ∧
    ¬ get_depreciation_percentage 120 = 92 := by
  have h1 : get_depreciation_percentage 120 = 8214 / 100 := by
    rw [dep_tail 120 (by norm_num)]
    norm_num [min_def]
  exact ⟨h1, by rw [h1]; norm_num⟩

/-- C9 amended: for CO2 = 209, petrol, first registration 2014-04-01: the 2026
bracket table yields gross `(209 - 155) * 594 + 14538 = 46614`; the
depreciation percentage at age `a ≥ 114` months is
`min(81 + (a - 114) * 0.19, 100)` (not a flat 92 percent) — 86.7 percent at
age 144 months (clock 2026-04-01) — so the 2026-only net tax is then 6199.66
(not 3729.12); the optimizer evaluates all regimes 2020 through 2026 for this
input and selects the minimal gross, the 2020 regime's 23146. -/
theorem claim_C9 :
    calculate_gross_bpm 209 = 46614 ∧
    (∀ a : ℤ, 114 ≤ a →
      get_depreciation_percentage a =
        min ((81 : ℚ) + ((a - 114 : ℤ) : ℚ) * 0.19) 100) ∧
    _get_applicable_regimes ⟨2014, 4, 1⟩ = HISTORICAL_BPM_REGIMES ∧
    (calculate_bpm 209 "petrol" ⟨2014, 4, 1⟩ ⟨2026, 4, 1⟩).depreciation_percentage =
      867 / 10 ∧
    (calculate_bpm 209 "petrol" ⟨2014, 4, 1⟩ ⟨2026, 4, 1⟩).bpm_2026_regime =
      619966 / 100 ∧
    (calculate_bpm 209 "petrol" ⟨2014, 4, 1⟩ ⟨2026, 4, 1⟩).gross_bpm = 23146 ∧
    (calculate_bpm 209 "petrol" ⟨2014, 4, 1⟩ ⟨2026, 4, 1⟩).regime_year = 2020 ∧
    (∀ x ∈ _get_applicable_regimes ⟨2014, 4, 1⟩,
      (23146 : ℚ) ≤ totalGrossFor 209 (normalize_fuel_type "petrol") x) := by
  refine ⟨?_, fun a ha => dep_tail a ha, ?_, ?_, ?_, ?_, ?_, ?_⟩
  · norm_num [calculate_gross_bpm, _calculate_gross_bpm_for_brackets, CO2_BRACKETS,
      grossFind, leMax, round2_eq]
  · show HISTORICAL_BPM_REGIMES.filter
        (fun r => decide (max (2014 : ℤ) 2020 ≤ r.year)) = HISTORICAL_BPM_REGIMES
    refine List.filter_eq_self.mpr ?_
    intro r hr
    refine decide_eq_true ?_
    have h1 := catalog_years_ge r hr
    omega
  · norm_num +decide [calculate_bpm, bestLoop, _get_applicable_regimes, HISTORICAL_BPM_REGIMES,
      List.filter, _calculate_bpm_for_regime, _calculate_gross_bpm_for_brackets, grossFind,
      leMax, round2_eq, _calculate_diesel_surcharge_for_regime, normalize_fuel_type,
      calculate_vehicle_age_months, get_depreciation_percentage, DEPRECIATION_TABLE, depFind,
      min_def, regime_2026, List.find?, hybrid_terms, hybrid_combos, electric_terms,
      diesel_terms, petrol_terms, lpg_terms, strIn, hasSub, leadsWith, pyLower, pyStrip]
  · norm_num +decide [calculate_bpm, bestLoop, _get_applicable_regimes, HISTORICAL_BPM_REGIMES,
      List.filter, _calculate_bpm_for_regime, _calculate_gross_bpm_for_brackets, grossFind,
      leMax, round2_eq, _calculate_diesel_surcharge_for_regime, normalize_fuel_type,
      calculate_vehicle_age_months, get_depreciation_percentage, DEPRECIATION_TABLE, depFind,
      min_def, regime_2026, List.find?, hybrid_terms, hybrid_combos, electric_terms,
      diesel_terms, petrol_terms, lpg_terms, strIn, hasSub, leadsWith, pyLower, pyStrip]
  · norm_num +decide [calculate_bpm, bestLoop, _get_applicable_regimes, HISTORICAL_BPM_REGIMES,
      List.filter, _calculate_bpm_for_regime, _calculate_gross_bpm_for_brackets, grossFind,
      leMax, round2_eq, _calculate_diesel_surcharge_for_regime, normalize_fuel_type,
      calculate_vehicle_age_months, get_depreciation_percentage, DEPRECIATION_TABLE, depFind,
      min_def, regime_2026, List.find?, hybrid_terms, hybrid_combos, electric_terms,
      diesel_terms, petrol_terms, lpg_terms, strIn, hasSub, leadsWith, pyLower, pyStrip]
  · norm_num +decide [calculate_bpm, bestLoop, _get_applicable_regimes, HISTORICAL_BPM_REGIMES,
      List.filter, _calculate_bpm_for_regime, _calculate_gross_bpm_for_brackets, grossFind,
      leMax, round2_eq, _calculate_diesel_surcharge_for_regime, normalize_fuel_type,
      calculate_vehicle_age_months, get_depreciation_percentage, DEPRECIATION_TABLE, depFind,
      min_def, regime_2026, List.find?, hybrid_terms, hybrid_combos, electric_terms,
      diesel_terms, petrol_terms, lpg_terms, strIn, hasSub, leadsWith, pyLower, pyStrip]
  · intro x hx
    fin_cases hx <;>
      norm_num +decide [totalGrossFor, _calculate_bpm_for_regime,
        _calculate_gross_bpm_for_brackets, grossFind, leMax, round2_eq,
        _calculate_diesel_surcharge_for_regime, normalize_fuel_type, hybrid_terms,
        hybrid_combos, electric_terms, diesel_terms, petrol_terms, lpg_terms, strIn, hasSub,
        leadsWith, pyLower, pyStrip]

theorem claim_C9_witness :
    get_depreciation_percentage 144 =
      min ((81 : ℚ) + ((144 - 114 : ℤ) : ℚ) * 0.19) 100 :=
  claim_C9.2.1 144 (by decide)

/-- C10: the `regime_savings` field of every result is non-negative: the 2026
regime is always among the compared regimes (or is itself the fallback), both
net figures are discounted by the same depreciation factor and rounded by the
same monotone rounding, so the selected net never exceeds the 2026 baseline
net. -/
theorem claim_C10 (co2_gkm : ℤ) (fuel_type : String) (d now : PyDate) :
    0 ≤ (calculate_bpm co2_gkm fuel_type d now).regime_savings := by
  by_cases hemp : _get_applicable_regimes d = []
  · have hb : bestLoop co2_gkm (normalize_fuel_type fuel_type)
        (_get_applicable_regimes d) none = none := by rw [hemp]; rfl
    rw [calculate_bpm_none _ _ _ _ hb]
    show 0 ≤ round2 _
    rw [sub_self, round2_zero]
  · obtain ⟨r, g, s, t, hb, hg, hs, ht, hmin, hfind⟩ :=
      bestLoop_spec co2_gkm (normalize_fuel_type fuel_type) _ hemp
    rw [calculate_bpm_some _ _ _ _ r g s t hb]
    show 0 ≤ round2 (round2 _ - round2 _)
    have hk : (0 : ℚ) ≤
        1 - get_depreciation_percentage (calculate_vehicle_age_months d now) / 100 := by
      have := dep_le_100 (calculate_vehicle_age_months d now)
      linarith
    have h2026 : t ≤ totalGrossFor co2_gkm (normalize_fuel_type fuel_type) regime_2026 :=
      hmin regime_2026 (applicable_2026 d hemp)
    have hmul := mul_le_mul_of_nonneg_right h2026 hk
    have hr := round2_mono hmul
    simp only [totalGrossFor] at hr
    exact round2_nonneg (by linarith)

end DrivingPassion
